import Mathlib

/-!
Verification of the pixel-feed rendering pipeline and recording controller
(src/main.js), shallowly embedded in Lean 4. JavaScript numbers are modelled
as exact rationals, canvas dimensions as naturals, and the DOM-side effects of
the renderer as an explicit list of render operations. The recording code is
modelled as a state machine driven by click and data-available events.
-/

namespace PixelFeed

/-! ### Configuration constants (src/main.js lines 9-14) -/

/-- Size of each pixel block: `let pixelSize = 3`. -/
def pixelSize : ℚ := 3

/-- Size of the gap between pixels: `let gapSize = 3`. -/
def gapSize : ℚ := 3

/-- Contrast factor: `let contrast = 2`. -/
def contrast : ℚ := 2

/-! ### Frame sampler (createSmallCanvas, src/main.js lines 84-97) -/

/-- Width the off-screen canvas receives in `createSmallCanvas`:
`Math.floor(canvas.width / (pixelSize + gapSize))`. -/
def createSmallCanvasWidth (canvasWidth : ℕ) (pixelSize gapSize : ℚ) : ℤ :=
  ⌊(canvasWidth : ℚ) / (pixelSize + gapSize)⌋

/-- Height the off-screen canvas receives in `createSmallCanvas`:
`Math.floor(canvas.height / (pixelSize + gapSize))`. -/
def createSmallCanvasHeight (canvasHeight : ℕ) (pixelSize gapSize : ℚ) : ℤ :=
  ⌊(canvasHeight : ℚ) / (pixelSize + gapSize)⌋

/-- The pair of dimensions `createSmallCanvas` assigns to the off-screen
canvas. -/
def createSmallCanvas (canvasWidth canvasHeight : ℕ) (pixelSize gapSize : ℚ) :
    ℤ × ℤ :=
  (createSmallCanvasWidth canvasWidth pixelSize gapSize,
   createSmallCanvasHeight canvasHeight pixelSize gapSize)

/-! ### Grayscale and contrast helpers (src/main.js lines 118-127) -/

/-- `convertToGrayscale(r, g, b)`: returns `(r + g + b) / 3`. -/
def convertToGrayscale (r g b : ℚ) : ℚ :=
  (r + g + b) / 3

/-- `adjustContrast(grayscale)`: computes
`128 + (grayscale - 128) * contrast` and clamps it to `[0, 255]` via
`Math.max(0, Math.min(255, grayscale))`. The global `contrast` is passed
explicitly as the first argument. -/
def adjustContrast (contrast grayscale : ℚ) : ℚ :=
  max 0 (min 255 (128 + (grayscale - 128) * contrast))

/-! ### Render operations

The renderer's only effects on the main canvas are clearing it, setting a
fill style and filling a circular path; we record them as a list of
operations in the order the code issues them. -/

/-- One drawing command issued against the main canvas context. -/
inductive RenderOp where
  | clearRect (x y w h : ℚ)
  | setFill (r g b a : ℚ)
  | circle (centerX centerY radius : ℚ)
deriving DecidableEq, Repr

/-- `drawCircle(ctx, centerX, centerY, radius)`: beginPath, a full arc,
closePath and fill; one filled circle. -/
def drawCircle (centerX centerY radius : ℚ) : RenderOp :=
  RenderOp.circle centerX centerY radius

/-- `clearMainCanvas()`: `context.clearRect(0, 0, canvas.width, canvas.height)`. -/
def clearMainCanvas (canvasWidth canvasHeight : ℕ) : RenderOp :=
  RenderOp.clearRect 0 0 canvasWidth canvasHeight

/-- Body of the inner loop of `drawPixelatedImage` for grid coordinate
`(x, y)`: reads the RGBA sample at `index = (y * width + x) * 4`, converts to
grayscale, adjusts contrast, sets the fill style to the resulting gray at
alpha 1 and draws the circle. `data` is the flat pixel array of the small
canvas. -/
def drawPixelCommands (contrast pixelSize gapSize : ℚ) (data : ℕ → ℚ)
    (width : ℕ) (x y : ℕ) : List RenderOp :=
  let index := (y * width + x) * 4
  let r := data index
  let g := data (index + 1)
  let b := data (index + 2)
  let grayscale := adjustContrast contrast (convertToGrayscale r g b)
  [RenderOp.setFill grayscale grayscale grayscale 1,
   drawCircle ((x : ℚ) * (pixelSize + gapSize)) ((y : ℚ) * (pixelSize + gapSize))
     (pixelSize / 2)]

/-- `drawPixelatedImage(data, smallCanvas)`: loops `y` over the small-canvas
height (outer) and `x` over its width (inner), issuing the fill-style and
circle commands for each sample. -/
def drawPixelatedImage (contrast pixelSize gapSize : ℚ) (data : ℕ → ℚ)
    (width height : ℕ) : List RenderOp :=
  (List.range height).flatMap fun y =>
    (List.range width).flatMap fun x =>
      drawPixelCommands contrast pixelSize gapSize data width x y

/-- `applyPixelatedFilter()`: creates the small canvas (whose dimensions give
the raster size), captures the frame into `data`, clears the main canvas and
then draws the pixelated image. The platform read-back of the frame is the
parameter `data`. -/
def applyPixelatedFilter (contrast pixelSize gapSize : ℚ)
    (canvasWidth canvasHeight : ℕ) (data : ℕ → ℚ) : List RenderOp :=
  let width := (createSmallCanvasWidth canvasWidth pixelSize gapSize).toNat
  let height := (createSmallCanvasHeight canvasHeight pixelSize gapSize).toNat
  clearMainCanvas canvasWidth canvasHeight ::
    drawPixelatedImage contrast pixelSize gapSize data width height

/-- Written from the specification of the Pixel Renderer contract: clear the
destination surface, then for every sample at grid coordinate `(x, y)` in
row-major order, compute `grayscale = (r + g + b) / 3`, apply contrast via
`128 + (grayscale - 128) * contrastFactor` clamped to `[0, 255]`, set the
fill color to that grayscale value with full opacity, and draw a filled
circle centered at `(x * (pixelSize + gapSize), y * (pixelSize + gapSize))`
with radius `pixelSize / 2`. -/
def specPixelRenderer (contrastFactor pixelSize gapSize : ℚ) (data : ℕ → ℚ)
    (canvasWidth canvasHeight : ℕ) (width height : ℕ) : List RenderOp :=
  RenderOp.clearRect 0 0 canvasWidth canvasHeight ::
  ((List.range height).flatMap fun y =>
    (List.range width).flatMap fun x =>
      let i := (y * width + x) * 4
      let grayscale := (data i + data (i + 1) + data (i + 2)) / 3
      let adjusted := max 0 (min 255 (128 + (grayscale - 128) * contrastFactor))
      [RenderOp.setFill adjusted adjusted adjusted 1,
       RenderOp.circle ((x : ℚ) * (pixelSize + gapSize))
         ((y : ℚ) * (pixelSize + gapSize)) (pixelSize / 2)])

/-- The uniform mid-gray grid: every sample filled with gray 128 at full
opacity, circles on the usual scaled grid. -/
def uniformMidGrayGrid (pixelSize gapSize : ℚ) (width height : ℕ) :
    List RenderOp :=
  (List.range height).flatMap fun y =>
    (List.range width).flatMap fun x =>
      [RenderOp.setFill 128 128 128 1,
       RenderOp.circle ((x : ℚ) * (pixelSize + gapSize))
         ((y : ℚ) * (pixelSize + gapSize)) (pixelSize / 2)]

/-! ### Claims about the pure pipeline -/

/-- C1: for every canvas width `W`, height `H`, pixel size `p` and gap size
`g` with `p + g > 0`, the raster produced by `createSmallCanvas` measures
`floor(W / (p + g)) × floor(H / (p + g))` (natural floor division); in
particular at `W = 640`, `H = 480`, `p = 3`, `g = 3` it is `106 × 80`. -/
theorem createSmallCanvas_dimensions (W H p g : ℕ) (hpg : 0 < p + g) :
    createSmallCanvas W H (p : ℚ) (g : ℚ) =
      (((W / (p + g) : ℕ) : ℤ), ((H / (p + g) : ℕ) : ℤ)) ∧
    createSmallCanvas 640 480 3 3 = (106, 80) := by
  have key : ∀ n : ℕ, (⌊(n : ℚ) / ((p : ℚ) + (g : ℚ))⌋ : ℤ) = ((n / (p + g) : ℕ) : ℤ) := by
    intro n
    have h1 : ((p : ℚ) + (g : ℚ)) = ((p + g : ℕ) : ℚ) := by push_cast; ring
    have h2 : ((n : ℚ)) = (((n : ℤ) : ℚ)) := by norm_cast
    rw [h1, h2, Rat.floor_intCast_div_natCast]
    norm_cast
  refine ⟨?_, ?_⟩
  · unfold createSmallCanvas createSmallCanvasWidth createSmallCanvasHeight
    rw [key W, key H]
  · unfold createSmallCanvas createSmallCanvasWidth createSmallCanvasHeight
    norm_num

/-- Witness for C1 at the concrete configuration of the source. -/
theorem createSmallCanvas_dimensions_witness :
    0 < 3 + 3 ∧
    (createSmallCanvas 640 480 ((3 : ℕ) : ℚ) ((3 : ℕ) : ℚ) =
      (((640 / (3 + 3) : ℕ) : ℤ), ((480 / (3 + 3) : ℕ) : ℤ)) ∧
    createSmallCanvas 640 480 3 3 = (106, 80)) :=
  ⟨by norm_num, createSmallCanvas_dimensions 640 480 3 3 (by norm_num)⟩

/-- C2: `applyPixelatedFilter` first clears the destination canvas, then
iterates the raster in row-major order (y outer, x inner) and, for each
sample, sets the fill to the contrast-adjusted grayscale
`clamp(128 + ((r + g + b) / 3 - 128) * contrastFactor)` with full opacity and
draws a filled circle at `(x * (pixelSize + gapSize), y * (pixelSize + gapSize))`
with radius `pixelSize / 2`: its command list equals the one prescribed by
the specification of the Pixel Renderer. -/
theorem applyPixelatedFilter_matches_spec (c p g : ℚ) (W H : ℕ) (data : ℕ → ℚ) :
    applyPixelatedFilter c p g W H data =
      specPixelRenderer c p g data W H
        (createSmallCanvasWidth W p g).toNat
        (createSmallCanvasHeight H p g).toNat :=
  rfl

/-- C3: for every grayscale input in `[0, 255]` and every contrast factor
(including negative factors and factors above one), `adjustContrast` lands in
`[0, 255]`. -/
theorem adjustContrast_range (c gray : ℚ) (h0 : 0 ≤ gray) (h1 : gray ≤ 255) :
    0 ≤ adjustContrast c gray ∧ adjustContrast c gray ≤ 255 := by
  unfold adjustContrast
  exact ⟨le_max_left 0 _, max_le (by norm_num) (min_le_left _ _)⟩

/-- Witness for C3 at gray 7 and contrast factor -5. -/
theorem adjustContrast_range_witness :
    (0 : ℚ) ≤ 7 ∧ (7 : ℚ) ≤ 255 ∧
    (0 ≤ adjustContrast (-5) 7 ∧ adjustContrast (-5) 7 ≤ 255) :=
  ⟨by norm_num, by norm_num, adjustContrast_range (-5) 7 (by norm_num) (by norm_num)⟩

/-- C4: the midpoint 128 is a fixed point of `adjustContrast` for every
contrast factor, and consequently a solid mid-gray frame (every sample read
as 128) renders as the uniform grid of gray-128 circles, regardless of the
contrast factor. -/
theorem adjustContrast_midpoint_fixed (c : ℚ) :
    adjustContrast c 128 = 128 ∧
    ∀ (p g : ℚ) (w h : ℕ),
      drawPixelatedImage c p g (fun _ => 128) w h = uniformMidGrayGrid p g w h := by
  have hmid : adjustContrast c 128 = 128 := by
    unfold adjustContrast
    norm_num
  refine ⟨hmid, ?_⟩
  intro p g w h
  have hcell : ∀ x y : ℕ, drawPixelCommands c p g (fun _ => 128) w x y =
      [RenderOp.setFill 128 128 128 1,
       RenderOp.circle ((x : ℚ) * (p + g)) ((y : ℚ) * (p + g)) (p / 2)] := by
    intro x y
    unfold drawPixelCommands drawCircle convertToGrayscale
    norm_num [hmid]
  simp only [drawPixelatedImage, uniformMidGrayGrid, hcell]

/-- C5: `convertToGrayscale` computes exactly `(r + g + b) / 3` for byte
inputs, with no truncation: three times the result recovers `r + g + b`. -/
theorem convertToGrayscale_exact (r g b : ℚ)
    (hr0 : 0 ≤ r) (hr1 : r ≤ 255) (hg0 : 0 ≤ g) (hg1 : g ≤ 255)
    (hb0 : 0 ≤ b) (hb1 : b ≤ 255) :
    convertToGrayscale r g b = (r + g + b) / 3 ∧
    3 * convertToGrayscale r g b = r + g + b := by
  refine ⟨rfl, ?_⟩
  unfold convertToGrayscale
  ring

/-- Witness for C5 at bytes (10, 20, 30). -/
theorem convertToGrayscale_exact_witness :
    convertToGrayscale 10 20 30 = (10 + 20 + 30) / 3 ∧
    3 * convertToGrayscale 10 20 30 = 10 + 20 + 30 :=
  convertToGrayscale_exact 10 20 30 (by norm_num) (by norm_num) (by norm_num)
    (by norm_num) (by norm_num) (by norm_num)

/-! ### Recording controller (src/main.js lines 17-78)

The mutable state touched by the recording code: whether `mediaRecorder` has
been assigned (camera acquisition succeeded), whether the recorder is
capturing, the `recordedChunks` array (each chunk modelled by its byte size),
the `disabled` flags of the two buttons, and the download link. Events are
the `getUserMedia` success continuation, the two button click handlers, and
the recorder's `dataavailable` callback. A click on stop also runs the
recorder's `onstop` callback, which builds the blob from `recordedChunks`
and exposes the download link. -/

/-- The mutable state of the recording controller. -/
structure RecorderState where
  initialized : Bool
  recording : Bool
  recordedChunks : List ℕ
  recordDisabled : Bool
  stopDisabled : Bool
  downloadVisible : Bool
  downloadBlob : Option (List ℕ)
deriving DecidableEq, Repr

/-- An event the recording code reacts to. -/
inductive RecEvent where
  | init
  | recordClick
  | stopClick
  | dataAvailable (size : ℕ)
deriving DecidableEq, Repr

/-- One step of the recording controller:
`init` is the `getUserMedia` success continuation assigning `mediaRecorder`;
`recordClick` is the record-button handler (guarded by `if (mediaRecorder)`:
clear `recordedChunks`, start the recorder, disable record, enable stop);
`stopClick` is the stop-button handler (guarded by `if (mediaRecorder)`:
stop the recorder — whose `onstop` builds the blob from `recordedChunks` and
shows the download link — enable record, disable stop);
`dataAvailable` is the recorder callback (push the chunk if its size
exceeds 0; it only exists once `mediaRecorder` is assigned). -/
def step (s : RecorderState) : RecEvent → RecorderState
  | RecEvent.init => { s with initialized := true }
  | RecEvent.recordClick =>
      if s.initialized then
        { s with recordedChunks := [], recording := true,
                 recordDisabled := true, stopDisabled := false }
      else s
  | RecEvent.stopClick =>
      if s.initialized then
        { s with recording := false,
                 downloadBlob := some s.recordedChunks, downloadVisible := true,
                 recordDisabled := false, stopDisabled := true }
      else s
  | RecEvent.dataAvailable size =>
      if s.initialized ∧ 0 < size then
        { s with recordedChunks := s.recordedChunks ++ [size] }
      else s

/-- Modelled from the spec: the HTML page declaring the two buttons and the
download link is not among the sources. Per the spec the two buttons are
mutually exclusive and recording is off before any interaction, so the page
loads with nothing recorded, the record button enabled, the stop button
disabled and the download link hidden. -/
def initState : RecorderState :=
  { initialized := false, recording := false, recordedChunks := [],
    recordDisabled := false, stopDisabled := true,
    downloadVisible := false, downloadBlob := none }

/-- Run a sequence of events from a state. -/
def run (s : RecorderState) : List RecEvent → RecorderState
  | [] => s
  | e :: es => run (step s e) es

/-- Whether the platform can emit this event in this state: the recorder
fires `dataavailable` only while it is capturing; the other events are user
or page actions, possible at any time. -/
def validEvent (s : RecorderState) : RecEvent → Bool
  | RecEvent.dataAvailable _ => s.recording
  | _ => true

/-- Whether a whole event sequence is emittable by the platform from `s`. -/
def validFrom (s : RecorderState) : List RecEvent → Bool
  | [] => true
  | e :: es => validEvent s e && validFrom (step s e) es

/-! ### Claims about the recording controller -/

/-- C6: when the recorder is initialized, a click on record resets the
chunk sequence to empty (the handler clears `recordedChunks` before calling
`start`), whatever the previous state. -/
theorem recordClick_clears_chunks (s : RecorderState) (h : s.initialized = true) :
    (step s RecEvent.recordClick).recordedChunks = [] := by
  simp [step, h]

/-- Witness for C6: after a start and a buffered chunk, a second start
without an intervening stop empties the chunk sequence. -/
theorem recordClick_clears_chunks_witness :
    (run initState [RecEvent.init, RecEvent.recordClick,
        RecEvent.dataAvailable 5]).initialized = true ∧
    (run initState [RecEvent.init, RecEvent.recordClick,
        RecEvent.dataAvailable 5]).recordedChunks = [5] ∧
    (step (run initState [RecEvent.init, RecEvent.recordClick,
        RecEvent.dataAvailable 5]) RecEvent.recordClick).recordedChunks = [] :=
  ⟨by decide, by decide,
   recordClick_clears_chunks
     (run initState [RecEvent.init, RecEvent.recordClick,
        RecEvent.dataAvailable 5]) (by decide)⟩

/-- C7 counterexample: a platform-valid run init, record, chunk of size 5,
stop reaches a state that is after a stop and before any further start, yet
the chunk sequence still holds the chunk: `onstop` builds the blob but never
empties `recordedChunks`, so the claim that the sequence is empty between a
stop and the next start is false. -/
theorem chunks_persist_after_stop :
    validFrom initState [RecEvent.init, RecEvent.recordClick,
        RecEvent.dataAvailable 5, RecEvent.stopClick] = true ∧
    (run initState [RecEvent.init, RecEvent.recordClick,
        RecEvent.dataAvailable 5, RecEvent.stopClick]).recording = false ∧
    (run initState [RecEvent.init, RecEvent.recordClick,
        RecEvent.dataAvailable 5, RecEvent.stopClick]).recordedChunks = [5] := by
  decide

/-- Helper for C7: under platform-valid events, from a non-capturing state
with no buffered chunks, no chunk appears while no record click occurs. -/
theorem chunks_stay_empty (es : List RecEvent) :
    ∀ s : RecorderState, s.recording = false → s.recordedChunks = [] →
      validFrom s es = true → RecEvent.recordClick ∉ es →
      (run s es).recordedChunks = [] ∧ (run s es).recording = false := by
  induction es with
  | nil =>
    intro s h1 h2 _ _
    exact ⟨h2, h1⟩
  | cons e es ih =>
    intro s h1 h2 hv hn
    rw [validFrom, Bool.and_eq_true] at hv
    rw [List.mem_cons, not_or] at hn
    rw [run]
    cases e with
    | init =>
      exact ih _ (by simp [step, h1]) (by simp [step, h2]) hv.2 hn.2
    | recordClick =>
      exact absurd rfl hn.1
    | stopClick =>
      refine ih _ ?_ ?_ hv.2 hn.2
      · by_cases hi : s.initialized <;> simp [step, hi, h1]
      · by_cases hi : s.initialized <;> simp [step, hi, h2]
    | dataAvailable n =>
      have : validEvent s (RecEvent.dataAvailable n) = true := hv.1
      rw [validEvent, h1] at this
      exact absurd this (by simp)

/-- C7 amended: under platform-valid event sequences from the initial state,
the chunk sequence can be non-empty only once a record click has occurred;
before the first start it is empty — but after a stop the chunks of the
finished session persist until the next start. -/
theorem chunks_nonempty_requires_start (es : List RecEvent)
    (hv : validFrom initState es = true)
    (hne : (run initState es).recordedChunks ≠ []) :
    RecEvent.recordClick ∈ es := by
  by_contra hn
  exact hne (chunks_stay_empty es initState rfl rfl hv hn).1

/-- Witness for the amended C7 on a concrete valid run that buffers one
chunk. -/
theorem chunks_nonempty_requires_start_witness :
    validFrom initState [RecEvent.init, RecEvent.recordClick,
        RecEvent.dataAvailable 3] = true ∧
    (run initState [RecEvent.init, RecEvent.recordClick,
        RecEvent.dataAvailable 3]).recordedChunks ≠ [] ∧
    RecEvent.recordClick ∈ [RecEvent.init, RecEvent.recordClick,
        RecEvent.dataAvailable 3] :=
  ⟨by decide, by decide,
   chunks_nonempty_requires_start
     [RecEvent.init, RecEvent.recordClick, RecEvent.dataAvailable 3]
     (by decide) (by decide)⟩

/-- C8: with the recorder initialized, the record click disables record and
enables stop, the stop click enables record and disables stop, and after
either click exactly one of the two buttons is enabled. -/
theorem start_stop_buttons_lockstep (s : RecorderState) (h : s.initialized = true) :
    ((step s RecEvent.recordClick).recordDisabled = true ∧
     (step s RecEvent.recordClick).stopDisabled = false) ∧
    ((step s RecEvent.stopClick).recordDisabled = false ∧
     (step s RecEvent.stopClick).stopDisabled = true) ∧
    (step s RecEvent.recordClick).recordDisabled ≠
      (step s RecEvent.recordClick).stopDisabled ∧
    (step s RecEvent.stopClick).recordDisabled ≠
      (step s RecEvent.stopClick).stopDisabled := by
  simp [step, h]

/-- Witness for C8 in the state right after camera acquisition succeeds. -/
theorem start_stop_buttons_lockstep_witness :
    (step initState RecEvent.init).initialized = true ∧
    (((step (step initState RecEvent.init) RecEvent.recordClick).recordDisabled = true ∧
      (step (step initState RecEvent.init) RecEvent.recordClick).stopDisabled = false) ∧
     ((step (step initState RecEvent.init) RecEvent.stopClick).recordDisabled = false ∧
      (step (step initState RecEvent.init) RecEvent.stopClick).stopDisabled = true) ∧
     (step (step initState RecEvent.init) RecEvent.recordClick).recordDisabled ≠
       (step (step initState RecEvent.init) RecEvent.recordClick).stopDisabled ∧
     (step (step initState RecEvent.init) RecEvent.stopClick).recordDisabled ≠
       (step (step initState RecEvent.init) RecEvent.stopClick).stopDisabled) :=
  ⟨by decide, start_stop_buttons_lockstep (step initState RecEvent.init) (by decide)⟩

/-- C9: when `mediaRecorder` was never assigned (camera acquisition failed),
both click handlers leave the whole state — chunks, both buttons, download
link — unchanged: each handler body is guarded by `if (mediaRecorder)`. -/
theorem uninitialized_clicks_are_noops (s : RecorderState)
    (h : s.initialized = false) :
    step s RecEvent.recordClick = s ∧ step s RecEvent.stopClick = s := by
  simp [step, h]

/-- Witness for C9 at the page-load state. -/
theorem uninitialized_clicks_are_noops_witness :
    initState.initialized = false ∧
    (step initState RecEvent.recordClick = initState ∧
     step initState RecEvent.stopClick = initState) :=
  ⟨rfl, uninitialized_clicks_are_noops initState rfl⟩

/-- Helper for C10: positivity of all buffered chunk sizes is preserved by
any event sequence. -/
theorem chunks_all_pos (es : List RecEvent) :
    ∀ s : RecorderState, (∀ c ∈ s.recordedChunks, 0 < c) →
      ∀ c ∈ (run s es).recordedChunks, 0 < c := by
  induction es with
  | nil =>
    intro s hs
    exact hs
  | cons e es ih =>
    intro s hs
    rw [run]
    apply ih
    cases e with
    | init => exact hs
    | recordClick =>
      by_cases hi : s.initialized <;> simp [step, hi] <;> exact hs
    | stopClick =>
      by_cases hi : s.initialized <;> simp [step, hi] <;> exact hs
    | dataAvailable n =>
      rw [step]
      split
      · rename_i hcond
        intro c hc
        rcases List.mem_append.mp hc with hmem | hmem
        · exact hs c hmem
        · rw [List.mem_singleton] at hmem
          exact hmem ▸ hcond.2
      · exact hs

/-- C10: in every state reachable by any event sequence from the initial
state, every buffered chunk has size strictly greater than zero: the
`dataavailable` handler pushes a chunk only when `event.data.size > 0`, and
nothing else adds chunks. -/
theorem recordedChunks_sizes_positive (es : List RecEvent) (c : ℕ)
    (hc : c ∈ (run initState es).recordedChunks) : 0 < c :=
  chunks_all_pos es initState (by simp [initState]) c hc

/-- Witness for C10 on a run that buffers a 3-byte chunk. -/
theorem recordedChunks_sizes_positive_witness :
    3 ∈ (run initState [RecEvent.init, RecEvent.recordClick,
        RecEvent.dataAvailable 3, RecEvent.stopClick]).recordedChunks ∧ 0 < 3 :=
  ⟨by decide,
   recordedChunks_sizes_positive
     [RecEvent.init, RecEvent.recordClick, RecEvent.dataAvailable 3,
      RecEvent.stopClick] 3 (by decide)⟩

end PixelFeed
